import Mathlib

/-!
Verification of the storage-provisioning core of the SeBS results repository.

The development shallowly embeds `sebs/storage/minio.py` (class `Minio`) and
the experiment script `scripts/cloud_experiments.py`.  Python strings are
Lean `String`s; Python dicts returned by `serialize` are `Option CachedConfig`
(`none` models the empty dict); stateful docker interaction is modelled by an
explicit environment `DockerEnv` plus a log of the docker operations a call
issues; randomness (the uuid4 draw, the secret keys) and the outcomes of
network calls are passed in as explicit parameters.
-/

namespace SeBS

/-- Lowercase-hex test used to express the bucket-name patterns of the spec. -/
def isHexLower (c : Char) : Bool :=
  ('0' ≤ c && c ≤ '9') || ('a' ≤ c && c ≤ 'f')

/-- Whether `needle` occurs at the start of `haystack` (character lists). -/
def listStartsWith : List Char → List Char → Bool
  | _, [] => true
  | [], _ :: _ => false
  | a :: as, b :: bs => a == b && listStartsWith as bs

/-- Whether `needle` occurs contiguously anywhere inside `haystack`
(character lists); this is Python's `needle in haystack` on strings. -/
def listContainsSeq : List Char → List Char → Bool
  | [], needle => needle.isEmpty
  | a :: t, needle => listStartsWith (a :: t) needle || listContainsSeq t needle

/-- Python's substring test `needle in haystack`. -/
def strContains (haystack needle : String) : Bool :=
  listContainsSeq haystack.data needle.data

/-- Python string slicing `s[0:n]`: take the first `n` characters. -/
def strTake (s : String) (n : Nat) : String :=
  String.mk (s.data.take n)

/-- Docker environment visible to the code: which containers exist (by id;
`containers.get` succeeds exactly on these) and the bridge-network IP address
a container reports after `reload()`. -/
structure DockerEnv where
  containers : String → Option String
  bridgeIP : String → String

/-- Operations issued against the docker client. `runContainer` is the only
provisioning (resource-creating) operation; `getContainer` and
`reloadContainer` are read-only lookups. -/
inductive DockerOp
  | runContainer (image : String)
  | getContainer (instance_id : String)
  | reloadContainer (instance_id : String)
deriving DecidableEq

/-- `runContainer` creates a resource; the other operations do not. -/
def DockerOp.isProvisioning : DockerOp → Bool
  | .runContainer _ => true
  | _ => false

/-- Errors raised by the `Minio` class, one constructor per `raise` site. -/
inductive MinioError
  | startFailure
  | ipDetectionFailure
  | containerNotFound (instance_id : String)
  | attributeOnNone
  | notImplementedError
  | bucketCreationError (msg : String)
deriving DecidableEq

namespace Minio

/-- Configuration of the urllib3 pool manager built by
`Minio._define_http_client` (timeouts in seconds). -/
structure HttpClientConfig where
  connect_timeout : Nat
  read_timeout : Nat
  maxsize : Nat
  retries_total : Nat
  backoff_factor : ℚ
  status_forcelist : List Nat
deriving DecidableEq

/-- Embeds `Minio._define_http_client`: `timeout = timedelta(seconds=1).seconds`
(which equals 1), `maxsize=10`, `Retry(total=5, backoff_factor=0.2,
status_forcelist=[500, 502, 503, 504])`. -/
def define_http_client : HttpClientConfig :=
  { connect_timeout := 1
    read_timeout := 1
    maxsize := 10
    retries_total := 5
    backoff_factor := 0.2
    status_forcelist := [500, 502, 503, 504] }

/-- A urllib3 `Retry` with an explicit `status_forcelist` retries a response
exactly when its HTTP status is in the forcelist. -/
def HttpClientConfig.retriesOnStatus (c : HttpClientConfig) (status : Nat) : Bool :=
  c.status_forcelist.contains status

/-- The `minio.Minio(...)` client object built by `Minio.get_connection`. -/
structure MinioConnection where
  endpoint : String
  access_key : String
  secret_key : String
  secure : Bool
  http_client : HttpClientConfig
deriving DecidableEq

/-- Mutable attributes of a `Minio` backend object.  The docker container
handle is identified with its id string; `connection` is `none` until
`configure_connection` has run. -/
structure MinioState where
  storage_container : Option String
  url : String
  port : Nat
  access_key : String
  secret_key : String
  input_buckets : List String
  output_buckets : List String
  connection : Option MinioConnection
deriving DecidableEq

/-- Embeds `Minio.get_connection`: a client on `self._url` with the stored
credentials, `secure=False` and the http client of `define_http_client`. -/
def get_connection (s : MinioState) : MinioConnection :=
  { endpoint := s.url
    access_key := s.access_key
    secret_key := s.secret_key
    secure := false
    http_client := define_http_client }

/-- Embeds `Minio.configure_connection`.  When `self._url == ""` it reloads the
container, reads the bridge-network IP address, formats
`self._url = "{IPAddress}:{Port}"`, and only then tests `if not self._url`
(raising `RuntimeError` on an empty url); finally it always sets
`self.connection = self.get_connection()`.  Calling `reload()` on a `None`
container raises an `AttributeError`, modelled by `attributeOnNone`. -/
def configure_connection (env : DockerEnv) (s : MinioState) :
    List DockerOp × Except MinioError MinioState :=
  if s.url = "" then
    match s.storage_container with
    | none => ([], .error .attributeOnNone)
    | some cid =>
      let url := env.bridgeIP cid ++ ":" ++ toString s.port
      if url = "" then
        ([DockerOp.reloadContainer cid], .error .ipDetectionFailure)
      else
        let s2 : MinioState := { s with url := url }
        ([DockerOp.reloadContainer cid],
          .ok { s2 with connection := some (get_connection s2) })
  else
    ([], .ok { s with connection := some (get_connection s) })

/-- Discriminator written into the serialized dict: the upper-case minio
constructor of `sebs.types.Storage`, spelled in lower case here. -/
inductive StorageTypes
  | minio
deriving DecidableEq

/-- The dict produced by `Minio.serialize` and consumed by `Minio.deserialize`.
`instance_id` is `none` when the key is absent from the dict. -/
structure CachedConfig where
  instance_id : Option String
  address : String
  port : Nat
  secret_key : String
  access_key : String
  input : List String
  output : List String
  storage_type : StorageTypes
deriving DecidableEq

/-- Embeds `Minio.serialize`: with a container handle it returns the full
dict; with `self._storage_container is None` it returns the empty dict,
modelled as `none`. -/
def serialize (s : MinioState) : Option CachedConfig :=
  match s.storage_container with
  | some cid =>
    some
      { instance_id := some cid
        address := s.url
        port := s.port
        secret_key := s.secret_key
        access_key := s.access_key
        input := s.input_buckets
        output := s.output_buckets
        storage_type := StorageTypes.minio }
  | none => none

/-- Embeds `Minio.deserialize`.  When `"instance_id" in cached_config` the
container is looked up with `containers.get`; `docker.errors.NotFound` is
re-raised as a `RuntimeError` (`containerNotFound`).  Otherwise the handle is
set to `None`.  All connection fields and the two bucket lists are copied from
the dict, then `configure_connection` runs.  The first component logs the
docker operations issued. -/
def deserialize (env : DockerEnv) (cached_config : CachedConfig) :
    List DockerOp × Except MinioError MinioState :=
  match cached_config.instance_id with
  | some instance_id =>
    match env.containers instance_id with
    | none => ([DockerOp.getContainer instance_id],
        .error (.containerNotFound instance_id))
    | some c =>
      let s : MinioState :=
        { storage_container := some c
          url := cached_config.address
          port := cached_config.port
          access_key := cached_config.access_key
          secret_key := cached_config.secret_key
          input_buckets := cached_config.input
          output_buckets := cached_config.output
          connection := none }
      let r := configure_connection env s
      (DockerOp.getContainer instance_id :: r.1, r.2)
  | none =>
    let s : MinioState :=
      { storage_container := none
        url := cached_config.address
        port := cached_config.port
        access_key := cached_config.access_key
        secret_key := cached_config.secret_key
        input_buckets := cached_config.input
        output_buckets := cached_config.output
        connection := none }
    configure_connection env s

/-- The reuse scan of `Minio._create_bucket`: the first element of `buckets`
that contains `name` as a substring (`if name in bucket_name`). -/
def findExisting (name : String) : List String → Option String
  | [] => none
  | bucket_name :: rest =>
    if strContains bucket_name name then some bucket_name else findExisting name rest

/-- Embeds `Minio._create_bucket`.  `mk` is the outcome of
`self.connection.make_bucket` on a given name; `uuid_str` is the string form
of the `uuid.uuid4()` draw.  If the scan finds a bucket containing `name` it
is returned with no creation call; otherwise the name
`"{}-{}".format(name, str(uuid.uuid4())[0:16])` is created.  A creation
failure is logged and the same error re-raised.  The first component is the
list of `make_bucket` calls issued. -/
def create_bucket (mk : String → Except MinioError Unit) (name : String)
    (buckets : List String) (uuid_str : String) :
    List String × Except MinioError String :=
  match findExisting name buckets with
  | some bucket_name => ([], .ok bucket_name)
  | none =>
    let bucket_name := name ++ "-" ++ strTake uuid_str 16
    match mk bucket_name with
    | .ok _ => ([bucket_name], .ok bucket_name)
    | .error err => ([bucket_name], .error err)

/-- Embeds `Minio.upload`: the body is `raise NotImplementedError()`. -/
def upload (s : MinioState) (bucket_name : String) (filepath : String)
    (key : String) : Except MinioError Unit :=
  .error .notImplementedError

/-- Result of `Minio.uploader_func`: success, an uncaught `IndexError` from
`self.input_buckets[bucket_idx]`, or the transport error re-raised
unmodified. -/
inductive UploadOutcome (e : Type)
  | ok
  | indexError
  | transportError (err : e)
deriving DecidableEq

/-- Embeds `Minio.uploader_func`: streams `filepath` into
`self.input_buckets[bucket_idx]` via `fput_object`; a
`minio.error.ResponseError` is logged and then the very same error object is
re-raised (`raise (err)`). -/
def uploader_func {e : Type} (s : MinioState)
    (fput : String → String → String → Except e Unit)
    (bucket_idx : Nat) (file : String) (filepath : String) : UploadOutcome e :=
  match s.input_buckets[bucket_idx]? with
  | none => .indexError
  | some bucket =>
    match fput bucket file filepath with
    | .ok _ => .ok
    | .error err => .transportError err

/-- One iteration of the `Minio.clean` loop over the output buckets:
`list_objects_v2` is materialised into a snapshot list, every object of the
snapshot is passed to `remove_objects`, and the per-object errors that
`remove_objects` yields are iterated and logged.  Returns the issued
deletions `(bucket, object)` and the logged errors. -/
def cleanLoop (listing : String → List String)
    (removeErrors : String → List String → List String) :
    List String → List (String × String) × List String
  | [] => ([], [])
  | bucket :: rest =>
    let objects := listing bucket
    let errs := removeErrors bucket objects
    let r := cleanLoop listing removeErrors rest
    (objects.map (fun o => (bucket, o)) ++ r.1, errs ++ r.2)

/-- Embeds `Minio.clean`.  `listing b` is the object listing of bucket `b` at
the moment of the call; `removeErrors b objs` is the stream of per-object
deletion errors reported by `remove_objects`.  The result type records that
the method returns normally (per-object errors are only logged). -/
def clean (s : MinioState) (listing : String → List String)
    (removeErrors : String → List String → List String) :
    Except MinioError (List (String × String) × List String) :=
  .ok (cleanLoop listing removeErrors s.output_buckets)

/-- Embeds `Minio.clean_bucket` for a single bucket: the listing snapshot is
mapped to delete requests, and the errors yielded by `remove_objects` are
iterated and logged. -/
def clean_bucket (listing : String → List String)
    (removeErrors : String → List String → List String) (bucket : String) :
    Except MinioError (List String × List String) :=
  .ok (listing bucket, removeErrors bucket (listing bucket))

/-- Embeds `Minio.start`.  `run_result` is the outcome of
`docker_client.containers.run("minio/minio:latest", ...)` (the id of the new
container, or the platform error); `access_key`/`secret_key` stand for the
fresh `secrets` draws.  `self._url` is set to `""` before the run, so
`configure_connection` always takes the reload branch.  Any exception is
turned into `RuntimeError("Starting Minio storage unsuccesful")`. -/
def start (env : DockerEnv) (run_result : Except String String)
    (access_key : String) (secret_key : String) (port : Nat) :
    List DockerOp × Except MinioError MinioState :=
  match run_result with
  | .error _ => ([DockerOp.runContainer "minio/minio:latest"], .error .startFailure)
  | .ok cid =>
    let s : MinioState :=
      { storage_container := some cid
        url := ""
        port := port
        access_key := access_key
        secret_key := secret_key
        input_buckets := []
        output_buckets := []
        connection := none }
    let r := configure_connection env s
    match r.2 with
    | .ok s2 => (DockerOp.runContainer "minio/minio:latest" :: r.1, .ok s2)
    | .error _ => (DockerOp.runContainer "minio/minio:latest" :: r.1, .error .startFailure)

end Minio

namespace CloudExperiments

/-- The `cloud` choices accepted by the argument parser of
`scripts/cloud_experiments.py`. -/
inductive Cloud
  | aws
  | azure
deriving DecidableEq

/-- The provider client objects the script can construct. -/
inductive CloudClient
  | awsClient
deriving DecidableEq

/-- Embeds the client-construction block of `scripts/cloud_experiments.py`:
`if args.cloud == 'aws'` binds `client = aws()`; the `else` branch is
`pass` (a TODO), so for `azure` the name `client` is never bound. -/
def makeClient : Cloud → Option CloudClient
  | .aws => some .awsClient
  | .azure => none

/-- The pipeline stages the script body executes, in order. -/
inductive Stage
  | createOutput
  | locateBenchmark
  | buildCodePackage
  | prepareInput
deriving DecidableEq

/-- Errors the modelled script body can raise.  `nameErrorClient` is the
Python `NameError` raised when the unbound name `client` is evaluated at the
`prepare_input(client, ...)` call. -/
inductive ScriptError
  | nameErrorClient
deriving DecidableEq

/-- Embeds the top-level statement sequence of `scripts/cloud_experiments.py`
after argument parsing: create the output directory, locate the benchmark,
build the code package, then call `prepare_input(client, ...)`.  The three
stages before `prepare_input` do not mention `client` and are modelled as
succeeding (their own failure modes are independent of the provider choice).
Returns the stages that ran to completion and the final outcome. -/
def runScript (cloud : Cloud) : List Stage × Except ScriptError Unit :=
  let stages := [Stage.createOutput, Stage.locateBenchmark, Stage.buildCodePackage]
  match makeClient cloud with
  | some _ => (stages ++ [Stage.prepareInput], .ok ())
  | none => (stages, .error .nameErrorClient)

end CloudExperiments

/-- The bucket-name pattern claimed by the spec: `result` is exactly
`name`, a hyphen, and eight lowercase hexadecimal characters
(`name-[0-9a-f]{8}`). -/
def matchesHex8Pattern (name result : String) : Bool :=
  listStartsWith result.data (name.data ++ ['-']) &&
  (result.data.drop (name.data.length + 1)).length == 8 &&
  (result.data.drop (name.data.length + 1)).all isHexLower

/-- Shape of `str(uuid.uuid4())`: 36 characters, hyphens at indices 8, 13,
18, 23, lowercase hex everywhere else. -/
def uuid4Shaped (u : String) : Bool :=
  u.data.length == 36 &&
  (List.range 36).all (fun i =>
    if i == 8 || i == 13 || i == 18 || i == 23 then u.data.getD i ' ' == '-'
    else isHexLower (u.data.getD i ' '))

/-- Shape of the first sixteen characters of a uuid4 string: 16 characters,
hyphens at indices 8 and 13, lowercase hex everywhere else
(`[0-9a-f]{8}-[0-9a-f]{4}-[0-9a-f]{2}`). -/
def take16Shaped (s : String) : Bool :=
  s.data.length == 16 &&
  (List.range 16).all (fun i =>
    if i == 8 || i == 13 then s.data.getD i ' ' == '-'
    else isHexLower (s.data.getD i ' '))

/-- C1: for every backend in state Ready (a container handle is present, the
url has been resolved) whose live container still exists, deserializing the
dict produced by `serialize` yields a backend whose `input_buckets` and
`output_buckets` equal the original lists exactly and in order. -/
theorem serialize_deserialize_preserves_buckets (env : DockerEnv)
    (s : Minio.MinioState) (cid c : String)
    (hc : s.storage_container = some cid)
    (henv : env.containers cid = some c)
    (hurl : s.url ≠ "") :
    ∃ cfg, Minio.serialize s = some cfg ∧
      ∃ s2, (Minio.deserialize env cfg).2 = .ok s2 ∧
        s2.input_buckets = s.input_buckets ∧
        s2.output_buckets = s.output_buckets := by
  refine ⟨{ instance_id := some cid, address := s.url, port := s.port,
            secret_key := s.secret_key, access_key := s.access_key,
            input := s.input_buckets, output := s.output_buckets,
            storage_type := .minio }, by simp [Minio.serialize, hc], ?_⟩
  simp only [Minio.deserialize, henv]
  simp [Minio.configure_connection, hurl]

/-- C1 witness: a concrete Ready backend round-trips its bucket lists. -/
theorem serialize_deserialize_preserves_buckets_witness :
    ∃ cfg, Minio.serialize
        { storage_container := some "cont1", url := "172.17.0.2:9000", port := 9000,
          access_key := "ak", secret_key := "sk",
          input_buckets := ["in1-a", "in2-b"], output_buckets := ["out1-c"],
          connection := none } = some cfg ∧
      ∃ s2, (Minio.deserialize
          ⟨fun i => if i = "cont1" then some "cont1" else none, fun _ => "172.17.0.2"⟩
          cfg).2 = .ok s2 ∧
        s2.input_buckets = ["in1-a", "in2-b"] ∧
        s2.output_buckets = ["out1-c"] :=
  serialize_deserialize_preserves_buckets _ _ "cont1" "cont1" rfl (by simp) (by decide)

/-- The reuse scan returns some element of the list that contains `name`,
whenever one exists. -/
theorem findExisting_spec (name : String) (buckets : List String) (b : String)
    (hb : b ∈ buckets) (hsub : strContains b name = true) :
    ∃ b0, Minio.findExisting name buckets = some b0 ∧ b0 ∈ buckets ∧
      strContains b0 name = true := by
  induction buckets with
  | nil => cases hb
  | cons a t ih =>
    cases hsc : strContains a name with
    | true =>
      exact ⟨a, by simp [Minio.findExisting, hsc], List.mem_cons_self a t, hsc⟩
    | false =>
      rcases List.mem_cons.mp hb with rfl | hbt
      · rw [hsc] at hsub; cases hsub
      · obtain ⟨b0, h1, h2, h3⟩ := ih hbt
        exact ⟨b0, by simp [Minio.findExisting, hsc, h1],
          List.mem_cons_of_mem _ h2, h3⟩

/-- C2: whenever some existing bucket name contains the logical name as a
substring, `_create_bucket` returns such an existing bucket unchanged and
issues no `make_bucket` call, whatever the uuid draw and whatever the
creation call would have returned. -/
theorem create_bucket_reuses_existing (mk : String → Except MinioError Unit)
    (name : String) (buckets : List String) (b : String)
    (hb : b ∈ buckets) (hsub : strContains b name = true) :
    ∃ b0, b0 ∈ buckets ∧ strContains b0 name = true ∧
      ∀ u, Minio.create_bucket mk name buckets u = ([], .ok b0) := by
  obtain ⟨b0, h1, h2, h3⟩ := findExisting_spec name buckets b hb hsub
  exact ⟨b0, h2, h3, fun u => by simp [Minio.create_bucket, h1]⟩

/-- C2 witness: with existing bucket `f-ab12cd34` the logical name `f` is
reused with no creation call. -/
theorem create_bucket_reuses_existing_witness :
    ∃ b0, b0 ∈ ["f-ab12cd34"] ∧ strContains b0 "f" = true ∧
      ∀ u, Minio.create_bucket (fun _ => .ok ()) "f" ["f-ab12cd34"] u =
        ([], .ok b0) :=
  create_bucket_reuses_existing (fun _ => .ok ()) "f" ["f-ab12cd34"] "f-ab12cd34"
    (by simp) (by decide)

/-- C3: when the cache entry references a container instance that no longer
exists, `deserialize` raises the container-not-found error and issues no
provisioning (container-run) operation. -/
theorem deserialize_missing_container_fails_no_provision (env : DockerEnv)
    (cfg : Minio.CachedConfig) (iid : String)
    (hid : cfg.instance_id = some iid)
    (hmiss : env.containers iid = none) :
    (Minio.deserialize env cfg).2 = .error (.containerNotFound iid) ∧
      ∀ op ∈ (Minio.deserialize env cfg).1, op.isProvisioning = false := by
  constructor
  · simp [Minio.deserialize, hid, hmiss]
  · intro op hop
    simp [Minio.deserialize, hid, hmiss] at hop
    simp [hop, DockerOp.isProvisioning]

/-- C3 witness: a concrete cache entry whose container is gone fails without
any provisioning operation. -/
theorem deserialize_missing_container_fails_no_provision_witness :
    (Minio.deserialize ⟨fun _ => none, fun _ => ""⟩
        { instance_id := some "gone", address := "172.17.0.2:9000", port := 9000,
          secret_key := "sk", access_key := "ak", input := ["i-1"],
          output := ["o-1"], storage_type := .minio }).2 =
      .error (.containerNotFound "gone") ∧
    ∀ op ∈ (Minio.deserialize ⟨fun _ => none, fun _ => ""⟩
        { instance_id := some "gone", address := "172.17.0.2:9000", port := 9000,
          secret_key := "sk", access_key := "ak", input := ["i-1"],
          output := ["o-1"], storage_type := .minio }).1,
      op.isProvisioning = false :=
  deserialize_missing_container_fails_no_provision _ _ "gone" rfl rfl

/-- C4: with `cloud = azure` the script does not fail at client construction;
it executes the output-directory, benchmark-location and code-packaging
stages with no client bound, and only then raises a `NameError` when the
`prepare_input(client, ...)` call evaluates the unbound name `client`. -/
theorem runScript_azure_proceeds_then_nameError :
    CloudExperiments.runScript .azure =
      ([.createOutput, .locateBenchmark, .buildCodePackage],
        .error .nameErrorClient) := rfl

/-- C5 counterexample: with no matching existing bucket and the legitimate
uuid4 draw `00000000-0000-4000-8000-000000000000`, `_create_bucket` on the
logical name `f` returns `f-00000000-0000-40`, which does not match the
claimed pattern `f-[0-9a-f]{8}` (the suffix is 16 characters long and
contains hyphens). -/
theorem create_bucket_pattern_counterexample :
    (Minio.create_bucket (fun _ => .ok ()) "f" []
        "00000000-0000-4000-8000-000000000000").2 = .ok "f-00000000-0000-40" ∧
      matchesHex8Pattern "f" "f-00000000-0000-40" = false := ⟨rfl, by decide⟩

/-- The reuse scan finds nothing when no existing bucket contains the name. -/
theorem findExisting_none (name : String) (buckets : List String)
    (h : ∀ b ∈ buckets, strContains b name = false) :
    Minio.findExisting name buckets = none := by
  induction buckets with
  | nil => rfl
  | cons a t ih =>
    simp only [Minio.findExisting, h a (List.mem_cons_self a t),
      Bool.false_eq_true, if_false]
    exact ih (fun b hb => h b (List.mem_cons_of_mem _ hb))

/-- The first sixteen characters of a uuid4-shaped string are 8 hex
characters, a hyphen, 4 hex characters, a hyphen and 2 hex characters. -/
theorem uuid4Shaped_take16 (u : String) (hu : uuid4Shaped u = true) :
    take16Shaped (strTake u 16) = true := by
  simp only [uuid4Shaped, Bool.and_eq_true, List.all_eq_true, beq_iff_eq] at hu
  obtain ⟨hlen, hall⟩ := hu
  simp only [take16Shaped, strTake, Bool.and_eq_true, List.all_eq_true, beq_iff_eq]
  constructor
  · simp [List.length_take, hlen]
  · intro i hi
    have hi16 : i < 16 := List.mem_range.mp hi
    have hgetD : (u.data.take 16).getD i ' ' = u.data.getD i ' ' := by
      simp [List.getD_eq_getElem?_getD, List.getElem?_take, hi16]
    simp only [hgetD]
    have h36 := hall i (List.mem_range.mpr (by omega))
    interval_cases i <;> simpa using h36

/-- C5 amended: when no existing bucket matches and the creation call
succeeds, `_create_bucket` issues exactly one creation call and returns the
name followed by a hyphen and the first sixteen characters of the uuid4
string, a suffix of the form `[0-9a-f]{8}-[0-9a-f]{4}-[0-9a-f]{2}`. -/
theorem create_bucket_fresh_uuid_format (mk : String → Except MinioError Unit)
    (name : String) (buckets : List String) (u : String)
    (hnone : ∀ b ∈ buckets, strContains b name = false)
    (hu : uuid4Shaped u = true)
    (hmk : mk (name ++ "-" ++ strTake u 16) = .ok ()) :
    Minio.create_bucket mk name buckets u =
      ([name ++ "-" ++ strTake u 16], .ok (name ++ "-" ++ strTake u 16)) ∧
      take16Shaped (strTake u 16) = true := by
  constructor
  · simp [Minio.create_bucket, findExisting_none name buckets hnone, hmk]
  · exact uuid4Shaped_take16 u hu

/-- C5 amended witness: a concrete fresh creation with a concrete uuid4. -/
theorem create_bucket_fresh_uuid_format_witness :
    Minio.create_bucket (fun _ => .ok ()) "f" []
        "01234567-89ab-4cde-8f01-23456789abcd" =
      (["f" ++ "-" ++ strTake "01234567-89ab-4cde-8f01-23456789abcd" 16],
        .ok ("f" ++ "-" ++ strTake "01234567-89ab-4cde-8f01-23456789abcd" 16)) ∧
      take16Shaped (strTake "01234567-89ab-4cde-8f01-23456789abcd" 16) = true :=
  create_bucket_fresh_uuid_format (fun _ => .ok ()) "f" []
    "01234567-89ab-4cde-8f01-23456789abcd" (by simp) (by decide) rfl

/-- C6: the storage client is always built with the fixed http client
configuration: 1-second connect and read timeouts, a connection pool of 10,
at most 5 retry attempts with backoff factor 0.2, retrying exactly the
statuses 500, 502, 503, 504 and never any 4xx status. -/
theorem http_client_policy :
    (∀ s : Minio.MinioState,
      (Minio.get_connection s).http_client = Minio.define_http_client) ∧
    Minio.define_http_client.connect_timeout = 1 ∧
    Minio.define_http_client.read_timeout = 1 ∧
    Minio.define_http_client.maxsize = 10 ∧
    Minio.define_http_client.retries_total = 5 ∧
    Minio.define_http_client.backoff_factor = 0.2 ∧
    (∀ st : Nat, Minio.define_http_client.retriesOnStatus st = true ↔
      (st = 500 ∨ st = 502 ∨ st = 503 ∨ st = 504)) ∧
    (∀ st : Nat, 400 ≤ st → st < 500 →
      Minio.define_http_client.retriesOnStatus st = false) := by
  have hiff : ∀ st : Nat, Minio.define_http_client.retriesOnStatus st = true ↔
      (st = 500 ∨ st = 502 ∨ st = 503 ∨ st = 504) := by
    intro st
    simp [Minio.HttpClientConfig.retriesOnStatus, Minio.define_http_client,
      List.elem_iff]
  refine ⟨fun _ => rfl, rfl, rfl, rfl, rfl, rfl, hiff, ?_⟩
  intro st h1 h2
  rw [← Bool.not_eq_true, hiff st]
  omega

/-- C6 witness: 503 is retried, 404 is not, and a concrete connection uses
this http client configuration. -/
theorem http_client_policy_witness :
    Minio.define_http_client.retriesOnStatus 503 = true ∧
    Minio.define_http_client.retriesOnStatus 404 = false ∧
    (Minio.get_connection
      { storage_container := none, url := "172.17.0.2:9000", port := 9000,
        access_key := "ak", secret_key := "sk", input_buckets := [],
        output_buckets := [], connection := none }).http_client =
      Minio.define_http_client :=
  ⟨(http_client_policy.2.2.2.2.2.2.1 503).mpr (Or.inr (Or.inr (Or.inl rfl))),
   http_client_policy.2.2.2.2.2.2.2 404 (by decide) (by decide),
   http_client_policy.1 _⟩

/-- C7 counterexample: `upload` on a concrete bucket, local path and key
raises `NotImplementedError` instead of streaming the file. -/
theorem upload_counterexample :
    Minio.upload
      { storage_container := none, url := "172.17.0.2:9000", port := 9000,
        access_key := "ak", secret_key := "sk", input_buckets := ["b-1"],
        output_buckets := [], connection := none } "b-1" "/tmp/data.bin" "key" =
      .error .notImplementedError := rfl

/-- C7 amended: `Minio.upload` raises `NotImplementedError` on every input
and never streams; the streaming entry point is `uploader_func`, which puts
the file into the indexed input bucket and, when the transport fails, raises
the very same error object unmodified. -/
theorem upload_not_implemented_uploader_propagates {e : Type}
    (s : Minio.MinioState) (bn fp k : String)
    (fput : String → String → String → Except e Unit)
    (bucket_idx : Nat) (file filepath : String) (bucket : String)
    (hidx : s.input_buckets[bucket_idx]? = some bucket) :
    Minio.upload s bn fp k = .error .notImplementedError ∧
    (fput bucket file filepath = .ok () →
      Minio.uploader_func s fput bucket_idx file filepath = .ok) ∧
    (∀ err, fput bucket file filepath = .error err →
      Minio.uploader_func s fput bucket_idx file filepath =
        .transportError err) := by
  refine ⟨rfl, ?_, ?_⟩
  · intro h
    simp [Minio.uploader_func, hidx, h]
  · intro err h
    simp [Minio.uploader_func, hidx, h]

/-- C7 amended witness: a concrete failing transport error is propagated as
the same value, and `upload` raises `NotImplementedError`. -/
theorem upload_not_implemented_uploader_propagates_witness :
    Minio.upload
        { storage_container := none, url := "172.17.0.2:9000", port := 9000,
          access_key := "ak", secret_key := "sk", input_buckets := ["ib-1"],
          output_buckets := [], connection := none } "bn" "/tmp/x" "k" =
      .error .notImplementedError ∧
    Minio.uploader_func
        { storage_container := none, url := "172.17.0.2:9000", port := 9000,
          access_key := "ak", secret_key := "sk", input_buckets := ["ib-1"],
          output_buckets := [], connection := none }
        (fun _ _ _ => (.error 7 : Except Nat Unit)) 0 "f.txt" "/tmp/f.txt" =
      .transportError 7 := by
  have h := upload_not_implemented_uploader_propagates
      { storage_container := none, url := "172.17.0.2:9000", port := 9000,
        access_key := "ak", secret_key := "sk", input_buckets := ["ib-1"],
        output_buckets := [], connection := none } "bn" "/tmp/x" "k"
      (fun _ _ _ => (.error 7 : Except Nat Unit)) 0 "f.txt" "/tmp/f.txt" "ib-1" rfl
  exact ⟨h.1, h.2.2 7 rfl⟩

/-- A string of the shape `a ++ ":" ++ b` is never empty. -/
theorem colon_append_ne_empty (a b : String) : a ++ ":" ++ b ≠ "" := by
  intro hab
  have hdata : (a.data ++ [':']) ++ b.data = ([] : List Char) :=
    congrArg String.data hab
  simp at hdata

/-- C8: the empty-address error branch of `configure_connection` is dead
code: the url is formatted as IP, colon, port before the emptiness test, so
it is never empty; in particular a container whose bridge network reports an
empty IP address does not make the method raise — it succeeds with the
malformed url `":{port}"`. -/
theorem configure_connection_empty_ip_does_not_raise (env : DockerEnv)
    (s : Minio.MinioState) (cid : String)
    (hurl : s.url = "") (hc : s.storage_container = some cid)
    (hip : env.bridgeIP cid = "") :
    (∀ env2 s2, (Minio.configure_connection env2 s2).2 ≠
      .error .ipDetectionFailure) ∧
    ∃ s3, (Minio.configure_connection env s).2 = .ok s3 ∧
      s3.url = ":" ++ toString s.port := by
  constructor
  · intro env2 s2 hcontra
    by_cases h2 : s2.url = ""
    · cases hm : s2.storage_container with
      | none => simp [Minio.configure_connection, h2, hm] at hcontra
      | some cid2 =>
        simp [Minio.configure_connection, h2, hm,
          colon_append_ne_empty (env2.bridgeIP cid2) (toString s2.port)] at hcontra
    · simp [Minio.configure_connection, h2] at hcontra
  · have hne := colon_append_ne_empty (env.bridgeIP cid) (toString s.port)
    simp only [Minio.configure_connection, hurl, if_true, hc]
    rw [if_neg hne]
    refine ⟨_, rfl, ?_⟩
    simp [hip]

/-- C8 witness: a concrete container reporting an empty IP address makes
`configure_connection` succeed with url `":9000"` instead of raising. -/
theorem configure_connection_empty_ip_does_not_raise_witness :
    (∀ env2 s2, (Minio.configure_connection env2 s2).2 ≠
      .error .ipDetectionFailure) ∧
    ∃ s3, (Minio.configure_connection ⟨fun _ => some "c1", fun _ => ""⟩
        { storage_container := some "c1", url := "", port := 9000,
          access_key := "ak", secret_key := "sk", input_buckets := [],
          output_buckets := [], connection := none }).2 = .ok s3 ∧
      s3.url = ":" ++ toString 9000 :=
  configure_connection_empty_ip_does_not_raise
    ⟨fun _ => some "c1", fun _ => ""⟩
    { storage_container := some "c1", url := "", port := 9000,
      access_key := "ak", secret_key := "sk", input_buckets := [],
      output_buckets := [], connection := none } "c1" rfl rfl rfl

/-- C9: `clean` returns normally whatever the per-object deletion errors,
and the deletions it issues are exactly the objects listed in each output
bucket at the moment of the call (the snapshot), in order. -/
theorem clean_snapshot_semantics (s : Minio.MinioState)
    (listing : String → List String)
    (removeErrors : String → List String → List String) :
    Minio.clean s listing removeErrors =
      .ok (s.output_buckets.flatMap (fun b => (listing b).map (fun o => (b, o))),
        s.output_buckets.flatMap (fun b => removeErrors b (listing b))) := by
  have h : ∀ l, Minio.cleanLoop listing removeErrors l =
      (l.flatMap (fun b => (listing b).map (fun o => (b, o))),
        l.flatMap (fun b => removeErrors b (listing b))) := by
    intro l
    induction l with
    | nil => rfl
    | cons a t ih => simp [Minio.cleanLoop, ih]
  simp [Minio.clean, h]

/-- C10: deserializing a cache entry without `instance_id` yields a backend
whose container handle is `None`, and serializing that backend returns the
empty dict, discarding the entry's address, port, credentials and bucket
lists. -/
theorem deserialize_without_instance_id_serializes_empty (env : DockerEnv)
    (cfg : Minio.CachedConfig)
    (hid : cfg.instance_id = none) (haddr : cfg.address ≠ "") :
    ∃ s2, (Minio.deserialize env cfg).2 = .ok s2 ∧
      s2.storage_container = none ∧ Minio.serialize s2 = none := by
  simp only [Minio.deserialize, hid]
  simp [Minio.configure_connection, haddr, Minio.serialize]

/-- C10 witness: a concrete non-self-hosted cache entry restores to a
backend whose serialization is the empty dict. -/
theorem deserialize_without_instance_id_serializes_empty_witness :
    ∃ s2, (Minio.deserialize ⟨fun _ => none, fun _ => ""⟩
        { instance_id := none, address := "192.168.0.1:9011", port := 9011,
          secret_key := "sk", access_key := "ak", input := ["i-1"],
          output := ["o-1"], storage_type := .minio }).2 = .ok s2 ∧
      s2.storage_container = none ∧ Minio.serialize s2 = none :=
  deserialize_without_instance_id_serializes_empty _ _ rfl (by decide)

end SeBS
